import Mathlib

/-!
Verification of the variational diffusion model core of the
`diffusion-sets` repository: noise schedules, conditioning embedding,
ELBO estimator loops, mask-weighted loss aggregation, and the
reverse-diffusion sampler step, shallowly embedded from
`models/diffusion.py` and `models/likelihood.py`.
Exact rational arithmetic stands in for floating point where only the
dataflow matters; a tagged type with a NaN element models IEEE NaN
propagation; real-valued definitions model the transcendental formulas.
-/

/- ### Noise schedules (the `NoiseScheduleFixedLinear` / `NoiseScheduleScalar`
classes live in `models/diffusion_utils.py`, which is not part of the
sources; they are modelled from the spec). -/

/-- Modelled from the spec: the two noise-schedule variants.
`models/diffusion_utils.py` (NoiseScheduleFixedLinear, NoiseScheduleScalar)
is missing from the sources. Fixed linear has endpoints `gmin`, `gmax`;
the learned scalar-affine variant carries its affine coefficients. -/
inductive NoiseSchedule where
  | fixedLinear (gmin gmax : ℚ)
  | scalarAffine (a b : ℚ)
deriving DecidableEq

/-- Modelled from the spec: fixed linear is
`gamma(t) = gamma_min + (gamma_max - gamma_min) * t`; learned scalar affine is
`gamma(t) = a * t + b` with `a >= 0` learned. -/
def NoiseSchedule.eval : NoiseSchedule → ℚ → ℚ
  | .fixedLinear gmin gmax, t => gmin + (gmax - gmin) * t
  | .scalarAffine a b, t => a * t + b

/-- `VariationalDiffusionModel.setup` (diffusion.py lines 110-115): the
`if / elif` chain assigning `self.gamma` has no `else` branch, so an
unrecognized name leaves the attribute unassigned, modelled as `none`.
The scalar schedule is anchored at construction so that
`gamma(0) = gamma_min` and `gamma(1) = gamma_max` (spec section 4.1). -/
def setupGamma (noise_schedule : String) (gmin gmax : ℚ) : Option NoiseSchedule :=
  if noise_schedule = "learned_linear" then some (.fixedLinear gmin gmax)
  else if noise_schedule = "scalar" then some (.scalarAffine (gmax - gmin) gmin)
  else none

/-- The schedule-relevant state of a constructed `VariationalDiffusionModel`:
`setup` runs to completion unconditionally (it raises nothing), so
construction always produces a model value. -/
structure VDMSchedState where
  gamma : Option NoiseSchedule
deriving DecidableEq

/-- Constructing the model: `setup` (diffusion.py lines 110-115) never
raises, so this is a total function. -/
def constructVDM (noise_schedule : String) (gmin gmax : ℚ) : VDMSchedState :=
  { gamma := setupGamma noise_schedule gmin gmax }

/-- `VariationalDiffusionModel.gammat` (diffusion.py lines 131-132):
evaluating `self.gamma(t)` fails with an attribute error when `setup`
never assigned `self.gamma`. -/
def gammat (m : VDMSchedState) (t : ℚ) : Except String ℚ :=
  match m.gamma with
  | some sched => .ok (sched.eval t)
  | none => .error "AttributeError: VariationalDiffusionModel has no attribute gamma"

/- ### Conditioning embedding (`VariationalDiffusionModel.embed`,
diffusion.py lines 206-222). -/

/-- Pointwise sum of two embedding vectors (`class_embedding + context_embedding`). -/
def listAdd (u v : List ℚ) : List ℚ := List.zipWith (fun a b => a + b) u v

/-- `astype(np.int32)` cast of the leading conditioning element: truncation
toward zero. -/
def asInt32 (q : ℚ) : ℤ := if 0 ≤ q then ⌊q⌋ else -⌊-q⌋

/-- The learned embedding tables of the model: `self.embedding_class`
(an `nn.Embed`) and `self.embedding_context` (an `nn.Dense`), abstracted
as functions. -/
structure EmbedParams where
  embedding_class : ℤ → List ℚ
  embedding_context : List ℚ → List ℚ

/-- `VariationalDiffusionModel.embed` (diffusion.py lines 206-222),
including Python short-circuit evaluation: when `conditioning` is `None`
and `n_classes > 0`, the guard `conditioning.shape[-1] > 1` dereferences
`None` and raises; when `n_classes = 0` every guard mentioning the shape
is short-circuited and the final `else` returns `None`. -/
def embed (n_classes : ℕ) (P : EmbedParams) (conditioning : Option (List ℚ)) :
    Except String (Option (List ℚ)) :=
  match conditioning with
  | none =>
    if 0 < n_classes then
      .error "AttributeError: NoneType object has no attribute shape"
    else .ok none
  | some c =>
    if 0 < n_classes ∧ 1 < c.length then
      .ok (some (listAdd (P.embedding_class (asInt32 c.headI)) (P.embedding_context c.tail)))
    else if 0 < n_classes ∧ c.length = 1 then
      .ok (some (P.embedding_class (asInt32 c.headI)))
    else if n_classes = 0 then
      .ok (some (P.embedding_context c))
    else .ok none

/-- A concrete instance of the embedding tables, for closed evaluations. -/
def embedParams0 : EmbedParams :=
  { embedding_class := fun _ => [0], embedding_context := fun _ => [0] }

/- ### How many times `__call__` invokes `embed`
(diffusion.py lines 175-238). The number of `self.embed` invocations
depends only on whether `conditioning` is present; these counters mirror
the call graph of `__call__`, `encode`, `decode` and `recon_loss`. -/

/-- `encode` (lines 224-230) calls `self.embed(conditioning)` exactly when
`conditioning is not None`. -/
def embedCountEncode (conditioningPresent : Bool) : ℕ :=
  if conditioningPresent then 1 else 0

/-- `decode` (lines 232-238) calls `self.embed(conditioning)` exactly when
`conditioning is not None`. -/
def embedCountDecode (conditioningPresent : Bool) : ℕ :=
  if conditioningPresent then 1 else 0

/-- `recon_loss` (lines 134-143) calls `self.decode(z_0_rescaled, cond)`
with the raw conditioning, so it inherits decode's `embed` call. -/
def embedCountReconLoss (conditioningPresent : Bool) : ℕ :=
  embedCountDecode conditioningPresent

/-- `latent_loss` (lines 145-154) never touches the conditioning. -/
def embedCountLatentLoss : ℕ := 0

/-- `diffusion_loss` (lines 156-173) receives the already-embedded `cond`
and performs no `embed` call of its own. -/
def embedCountDiffusionLoss : ℕ := 0

/-- `__call__` (lines 175-204): `self.encode(x, conditioning)`, then
`self.recon_loss(x, f, conditioning)`, then `latent_loss`, then the
unconditional direct call `cond = self.embed(conditioning)` (line 201),
then `diffusion_loss(t, f, cond, mask)`. -/
def embedCountCall (conditioningPresent : Bool) : ℕ :=
  embedCountEncode conditioningPresent + embedCountReconLoss conditioningPresent +
    embedCountLatentLoss + 1 + embedCountDiffusionLoss

/- ### IEEE NaN propagation and the mask-weighted aggregation of
`elbo` (likelihood.py lines 19-33). -/

/-- A floating-point value: a finite (exactly represented) number or NaN.
Infinities play no role in the claims and are omitted. -/
inductive FP where
  | val : ℚ → FP
  | nan : FP
deriving DecidableEq

/-- IEEE addition: NaN absorbs. -/
def FP.add : FP → FP → FP
  | .val a, .val b => .val (a + b)
  | _, _ => .nan

/-- IEEE multiplication: NaN absorbs, in particular `NaN * 0 = NaN`. -/
def FP.mul : FP → FP → FP
  | .val a, .val b => .val (a * b)
  | _, _ => .nan

/-- Division of a loss term by the integer `steps` (`/ steps` in
likelihood.py lines 20 and 30). -/
def FP.divNat (x : FP) (n : ℕ) : FP :=
  match x with
  | .val a => .val (a / (n : ℚ))
  | .nan => .nan

/-- A boolean mask entry promoted to a float weight, as in
`new_loss * mask[..., None]`. -/
def maskFP (b : Bool) : FP := .val (if b then 1 else 0)

/-- Sum of a list of floats (the innermost axis of `.sum((-1, -2))`). -/
def fpSum (row : List FP) : FP := row.foldr FP.add (.val 0)

/-- `(loss * mask[..., None]).sum((-1, -2))` for one batch element:
`loss` is indexed `[point][feature]`, `mask` is indexed `[point]`; every
feature of point `p` is weighted by `mask[p]` and everything is summed. -/
def maskedSum (loss : List (List FP)) (mask : List Bool) : FP :=
  fpSum (List.zipWith (fun row m => fpSum (row.map (fun x => FP.mul x (maskFP m)))) loss mask)

/-- One batch element's contribution to `vlb_loss` in `elbo`
(likelihood.py lines 19-32): the mask-weighted sums of the
reconstruction and latent losses plus the accumulated diffusion loss,
where each of the `steps` diffusion terms is mask-weighted, summed and
divided by `steps` before accumulation. -/
def elboElementLoss (recon klz : List (List FP)) (diffs : List (List (List FP)))
    (mask : List Bool) (steps : ℕ) : FP :=
  FP.add (FP.add (maskedSum recon mask) (maskedSum klz mask))
    (diffs.foldl (fun acc d => FP.add acc (FP.divNat (maskedSum d mask) steps)) (.val 0))

/- ### The two execution strategies of `elbo`
(likelihood.py lines 14-33). -/

/-- `jax.lax.fori_loop lower upper body init`: applies `body` at
`i = lower, ..., upper - 1` sequentially. -/
def foriLoop {α : Type} (lower upper : ℕ) (body : ℕ → α → α) (init : α) : α :=
  (List.range' lower (upper - lower)).foldl (fun v i => body i v) init

/-- The eager Python `for i in range(steps)` loop, written as the
structural recursion it unrolls to. -/
def pythonForAux {α : Type} (body : ℕ → α → α) : ℕ → ℕ → α → α
  | _, 0, v => v
  | i, Nat.succ n, v => pythonForAux body (i + 1) n (body i v)

/-- `for i in range(steps)` starting from `i = 0`. -/
def pythonFor {α : Type} (body : ℕ → α → α) (steps : ℕ) (init : α) : α :=
  pythonForAux body 0 steps init

/-- The components of `elbo` that the loop-equivalence claim treats as
opaque: the PRNG key `split` (returning the carried key then the spent
key, as `rng, spl = jax.random.split(rng)`), the mask-weighted
reconstruction loss (which consumes a key), the latent loss, and the
mask-weighted per-step diffusion loss as a function of the grid time
`i / steps` and the key it is evaluated with. -/
structure ElboParts where
  split : ℕ → ℕ × ℕ
  reconMasked : ℕ → ℚ
  klzMasked : ℚ
  diffLossMasked : ℚ → ℕ → ℚ

/-- The shared loop body (likelihood.py lines 16-20 and 27-30): split the
carried key, evaluate the diffusion loss at time `i / steps` with the
spent key, accumulate its `steps`-th part, carry the fresh key. -/
def elboBody (P : ElboParts) (steps : ℕ) (i : ℕ) (val : ℚ × ℕ) : ℚ × ℕ :=
  (val.1 + P.diffLossMasked ((i : ℚ) / (steps : ℚ)) (P.split val.2).2 / (steps : ℚ),
    (P.split val.2).1)

/-- The diffusion-loss accumulation with `unroll_loop=False`
(likelihood.py line 22): `jax.lax.fori_loop(0, steps, body_fun, (0, rng))`. -/
def elboLoopFori (P : ElboParts) (steps : ℕ) (rng0 : ℕ) : ℚ × ℕ :=
  foriLoop 0 steps (elboBody P steps) (0, rng0)

/-- The diffusion-loss accumulation with `unroll_loop=True`
(likelihood.py lines 25-30): the eager Python loop. -/
def elboLoopUnrolled (P : ElboParts) (steps : ℕ) (rng0 : ℕ) : ℚ × ℕ :=
  pythonFor (elboBody P steps) steps (0, rng0)

/-- The scalar returned by `elbo` (likelihood.py lines 8-33) for either
strategy: the initial `rng, spl = jax.random.split(rng)`, the
step-independent reconstruction and latent terms, the chosen diffusion
loop, and the final negated total (one batch element, so the batch mean
is the value itself). -/
def elboValue (P : ElboParts) (steps : ℕ) (rng : ℕ) (unroll_loop : Bool) : ℚ :=
  let rng1 := (P.split rng).1
  let ld := if unroll_loop then elboLoopUnrolled P steps rng1 else elboLoopFori P steps rng1
  Neg.neg (P.reconMasked rng1 + P.klzMasked + ld.1)

/-- A concrete `ElboParts`, for closed evaluations. -/
def elboParts0 : ElboParts :=
  { split := fun n => (2 * n + 1, 2 * n + 2)
    reconMasked := fun k => (k : ℚ)
    klzMasked := 1
    diffLossMasked := fun t k => t + (k : ℚ) }

/- ### The reverse-diffusion transition
(`VariationalDiffusionModel.sample_step`, diffusion.py lines 240-260). -/

/-- Pointwise difference of two per-point tensors. -/
def vSub (u v : List ℚ) : List ℚ := List.zipWith (fun a b => a - b) u v

/-- Scalar times a per-point tensor. -/
def sMul (c : ℚ) (v : List ℚ) : List ℚ := v.map (fun a => c * a)

/-- The numeric primitives `sample_step` composes, treated as opaque
functions shared by the source transcription and the spec transcription:
`nn.sigmoid`, `np.expm1`, `np.sqrt`, `sigma2` (from the missing
`models/diffusion_utils.py`), the noise schedule `self.gamma`, the PRNG
fold `jax.random.fold_in` and standard-normal draw `jax.random.normal`
(keyed, sized by the latent shape), the conditioning embedding
`self.embed`, and the score network `self.score_model` applied to
`(z, g_t, cond, mask)`. -/
structure SamplePrims where
  sigmoid : ℚ → ℚ
  expm1 : ℚ → ℚ
  sqrt : ℚ → ℚ
  sigma2 : ℚ → ℚ
  gamma : ℚ → ℚ
  foldIn : ℕ → ℕ → ℕ
  normal : ℕ → ℕ → List ℚ
  embedF : Option (List ℚ) → Option (List ℚ)
  score : List ℚ → ℚ → Option (List ℚ) → List Bool → List ℚ

/-- `sample_step` transcribed statement by statement from
diffusion.py lines 240-260. -/
def sample_step (P : SamplePrims) (rng i T : ℕ) (z_t : List ℚ)
    (conditioning : Option (List ℚ)) (mask : List Bool) : List ℚ :=
  let rng_body := P.foldIn rng i
  let eps := P.normal rng_body z_t.length
  let t : ℚ := ((T : ℚ) - (i : ℚ)) / (T : ℚ)
  let s : ℚ := ((T : ℚ) - (i : ℚ) - 1) / (T : ℚ)
  let g_s := P.gamma s
  let g_t := P.gamma t
  let cond := P.embedF conditioning
  let eps_hat_cond := P.score z_t g_t cond mask
  let a := P.sigmoid g_s
  let b := P.sigmoid g_t
  let c := -(P.expm1 (g_t - g_s))
  let sigma_t := P.sqrt (P.sigma2 g_t)
  List.zipWith (fun x y => x + y)
    (sMul (P.sqrt (a / b)) (vSub z_t (sMul (sigma_t * c) eps_hat_cond)))
    (sMul (P.sqrt ((1 - a) * c)) eps)

/-- The transition exactly as the spec words it (section 4.6): given step
`i`, compute `t = (T-i)/T` and `s = (T-i-1)/T`; derive `gamma(s)` and
`gamma(t)`; query the score network for the predicted noise; compute
`a = sigmoid(gamma(s))`, `b = sigmoid(gamma(t))`,
`c = -expm1(gamma(t) - gamma(s))`, `sigma_t = sqrt(sigma2(gamma(t)))`;
draw fresh noise keyed by folding the step index into the run's key; and
return `sqrt(a/b) * (z_t - sigma_t*c*eps_hat) + sqrt((1-a)*c) * eps`. -/
def sampleStepSpec (P : SamplePrims) (rng i T : ℕ) (z_t : List ℚ)
    (conditioning : Option (List ℚ)) (mask : List Bool) : List ℚ :=
  let t : ℚ := ((T : ℚ) - (i : ℚ)) / (T : ℚ)
  let s : ℚ := ((T : ℚ) - (i : ℚ) - 1) / (T : ℚ)
  let gs := P.gamma s
  let gt := P.gamma t
  let epsHat := P.score z_t gt (P.embedF conditioning) mask
  let a := P.sigmoid gs
  let b := P.sigmoid gt
  let c := -(P.expm1 (gt - gs))
  let sigmaT := P.sqrt (P.sigma2 gt)
  let eps := P.normal (P.foldIn rng i) z_t.length
  List.zipWith (fun x y => x + y)
    (sMul (P.sqrt (a / b)) (vSub z_t (sMul (sigmaT * c) epsHat)))
    (sMul (P.sqrt ((1 - a) * c)) eps)

/- ### Real-valued formulas: `sigmoid`, `alpha`, `sigma2`
(modelled from the spec; `models/diffusion_utils.py` is missing from the
sources) and `latent_loss` (diffusion.py lines 145-154). -/

/-- The logistic sigmoid over the reals. -/
noncomputable def sigmoidR (x : ℝ) : ℝ := 1 / (1 + Real.exp (-x))

/-- Modelled from the spec: `sigma2(gamma) = sigmoid(gamma)` (noise
variance); `sigma2` lives in the missing `models/diffusion_utils.py`. -/
noncomputable def sigma2R (g : ℝ) : ℝ := sigmoidR g

/-- Modelled from the spec: `alpha(gamma) = sqrt(sigmoid(-gamma))` (signal
retention); `alpha` lives in the missing `models/diffusion_utils.py`. -/
noncomputable def alphaR (g : ℝ) : ℝ := Real.sqrt (sigmoidR (-g))

/-- `VariationalDiffusionModel.latent_loss` (diffusion.py lines 145-154)
as a function of the log-SNR at time one, `g1 = gamma(1)`, and one latent
component `f`: with `var_1 = sigma2(g_1)`,
`0.5 * ((1 - var_1) * f^2 + var_1 - log var_1 - 1)`. -/
noncomputable def latent_loss (g1 f : ℝ) : ℝ :=
  let var_1 := sigma2R g1
  let mean1_sqr := (1 - var_1) * f ^ 2
  0.5 * (mean1_sqr + var_1 - Real.log var_1 - 1)

/- ### The integration grid of `elbo` and the time shift inside
`diffusion_loss`. -/

/-- The time grid `elbo` integrates over (likelihood.py lines 19 and 29):
`t = i / steps` for `i = 0, ..., steps - 1`. -/
def elboTimeGrid (steps : ℕ) : List ℚ := (List.range steps).map (fun i => (i : ℚ) / (steps : ℚ))

/-- The shifted time `s = t - 1/T` at which `diffusion_loss`
(diffusion.py line 170) queries the noise schedule, `T` the configured
`timesteps`. -/
def diffusionLossShiftedTime (t : ℚ) (T : ℕ) : ℚ := t - 1 / (T : ℚ)

/- ### Shared helper lemmas -/

theorem sigmoidR_pos (x : ℝ) : 0 < sigmoidR x := by
  unfold sigmoidR
  positivity

theorem sigmoidR_lt_one (x : ℝ) : sigmoidR x < 1 := by
  unfold sigmoidR
  rw [div_lt_one (by positivity)]
  linarith [Real.exp_pos (-x)]

theorem fpSum_cons (x : FP) (l : List FP) : fpSum (x :: l) = FP.add x (fpSum l) := rfl

theorem maskedSum_cons (row : List FP) (rows : List (List FP)) (m : Bool) (ms : List Bool) :
    maskedSum (row :: rows) (m :: ms) =
      FP.add (fpSum (row.map (fun x => FP.mul x (maskFP m)))) (maskedSum rows ms) := rfl

theorem fpSum_maskedRow_false (row : List FP) (h : ∀ x ∈ row, x ≠ FP.nan) :
    fpSum (row.map (fun x => FP.mul x (maskFP false))) = FP.val 0 := by
  induction row with
  | nil => rfl
  | cons x xs ih =>
    have hx : x ≠ FP.nan := h x (by simp)
    have hxs : ∀ y ∈ xs, y ≠ FP.nan := fun y hy => h y (by simp [hy])
    obtain ⟨a, rfl⟩ : ∃ a, x = FP.val a := by
      cases x with
      | val a => exact ⟨a, rfl⟩
      | nan => exact absurd rfl hx
    rw [List.map_cons, fpSum_cons, ih hxs]
    simp [FP.mul, FP.add, maskFP]

theorem maskedSum_allFalse (loss : List (List FP)) (mask : List Bool)
    (hm : ∀ b ∈ mask, b = false)
    (hfin : ∀ row ∈ loss, ∀ x ∈ row, x ≠ FP.nan) :
    maskedSum loss mask = FP.val 0 := by
  induction loss generalizing mask with
  | nil => cases mask <;> rfl
  | cons row rows ih =>
    cases mask with
    | nil => rfl
    | cons m ms =>
      have hm0 : m = false := hm m (by simp)
      subst hm0
      rw [maskedSum_cons,
        fpSum_maskedRow_false row (hfin row (by simp)),
        ih ms (fun b hb => hm b (by simp [hb])) (fun r hr => hfin r (by simp [hr]))]
      simp [FP.add]

theorem elboDiffFold_allFalse (diffs : List (List (List FP))) (mask : List Bool) (steps : ℕ)
    (hm : ∀ b ∈ mask, b = false)
    (hd : ∀ d ∈ diffs, ∀ row ∈ d, ∀ x ∈ row, x ≠ FP.nan) :
    diffs.foldl (fun acc d => FP.add acc (FP.divNat (maskedSum d mask) steps)) (FP.val 0) =
      FP.val 0 := by
  induction diffs with
  | nil => rfl
  | cons d ds ih =>
    simp only [List.foldl_cons]
    rw [maskedSum_allFalse d mask hm (hd d (by simp))]
    have hstep : FP.add (FP.val 0) (FP.divNat (FP.val 0) steps) = FP.val 0 := by
      simp [FP.add, FP.divNat]
    rw [hstep]
    exact ih (fun e he => hd e (by simp [he]))

theorem pythonForAux_eq_range' {α : Type} (body : ℕ → α → α) :
    ∀ (n i : ℕ) (v : α),
      pythonForAux body i n v = (List.range' i n).foldl (fun w j => body j w) v := by
  intro n
  induction n with
  | zero => intro i v; rfl
  | succ k ih =>
    intro i v
    rw [List.range'_succ, List.foldl_cons]
    exact ih (i + 1) (body i v)

/- ### Claim theorems -/

/-- C1 counterexample: for the fixed linear schedule with the configured
`gamma_min = -3 < 3 = gamma_max`, `t1 = 0 <= 1 = t2` but
`gamma(t1) < gamma(t2)`, refuting `gamma(t1) >= gamma(t2)`: the log-SNR
of this code is increasing in time, not non-increasing. -/
theorem gamma_linear_not_nonincreasing :
    (0 : ℚ) ≤ 1 ∧ (-3 : ℚ) < 3 ∧
    ¬ (NoiseSchedule.eval (NoiseSchedule.fixedLinear (-3) 3) 0 ≥
        NoiseSchedule.eval (NoiseSchedule.fixedLinear (-3) 3) 1) := by
  refine ⟨by norm_num, by norm_num, ?_⟩
  simp only [NoiseSchedule.eval]
  norm_num

/-- C1 (amended): for both noise-schedule variants the log-SNR is
monotonically non-DEcreasing in time: whenever `gamma_min <= gamma_max`
(fixed linear), respectively `0 <= a` (learned scalar affine), and
`t1 <= t2`, then `gamma(t1) <= gamma(t2)`. -/
theorem gamma_schedules_nondecreasing (gmin gmax a b t1 t2 : ℚ)
    (hg : gmin ≤ gmax) (ha : 0 ≤ a) (ht : t1 ≤ t2) :
    NoiseSchedule.eval (NoiseSchedule.fixedLinear gmin gmax) t1 ≤
      NoiseSchedule.eval (NoiseSchedule.fixedLinear gmin gmax) t2 ∧
    NoiseSchedule.eval (NoiseSchedule.scalarAffine a b) t1 ≤
      NoiseSchedule.eval (NoiseSchedule.scalarAffine a b) t2 := by
  constructor <;> simp only [NoiseSchedule.eval] <;> nlinarith

/-- C1 witness: the amended monotonicity at the configured endpoints
`gamma_min = -3`, `gamma_max = 3` and the anchored scalar schedule, at
`t1 = 0`, `t2 = 1`. -/
theorem gamma_schedules_nondecreasing_witness :
    NoiseSchedule.eval (NoiseSchedule.fixedLinear (-3) 3) 0 ≤
      NoiseSchedule.eval (NoiseSchedule.fixedLinear (-3) 3) 1 ∧
    NoiseSchedule.eval (NoiseSchedule.scalarAffine 6 (-3)) 0 ≤
      NoiseSchedule.eval (NoiseSchedule.scalarAffine 6 (-3)) 1 :=
  gamma_schedules_nondecreasing (-3) 3 6 (-3) 0 1 (by norm_num) (by norm_num) (by norm_num)

/-- C2 counterexample: with conditioning present, one `__call__` of the
model invokes `embed` three times (in `encode`, in `decode` via
`recon_loss`, and directly before `diffusion_loss`), not exactly once. -/
theorem embed_count_not_once :
    embedCountCall true = 3 ∧ embedCountCall true ≠ 1 := by
  constructor <;> simp [embedCountCall, embedCountEncode, embedCountReconLoss,
    embedCountDecode, embedCountLatentLoss, embedCountDiffusionLoss]

/-- C2 (amended): during one `__call__`, the conditioning embedding is
computed three times when conditioning is present (once inside `encode`,
once inside `decode` via `recon_loss`, once directly at line 201) and
once (on the absent conditioning) when it is not. -/
theorem embed_count_per_call :
    embedCountCall true = 3 ∧ embedCountCall false = 1 := by
  constructor <;> rfl

/-- C5 counterexample: constructing the model with the unknown
noise-schedule name "cosine" does not fail: `setup` runs to completion
and silently leaves the schedule unassigned, and the failure only
surfaces on the first later evaluation of `gammat`. -/
theorem unknown_schedule_not_fatal_at_construction :
    constructVDM "cosine" (-3) 3 = { gamma := none } ∧
    gammat (constructVDM "cosine" (-3) 3) 0 =
      .error "AttributeError: VariationalDiffusionModel has no attribute gamma" :=
  ⟨rfl, rfl⟩

/-- C5 (amended): for every noise-schedule name other than the recognized
"learned_linear" and "scalar", construction succeeds with the schedule
attribute left unset, and every later schedule evaluation (`gammat`)
fails with an attribute error — the failure is deferred, not raised at
construction time. -/
theorem unknown_schedule_defers_failure (name : String) (gmin gmax t : ℚ)
    (h1 : name ≠ "learned_linear") (h2 : name ≠ "scalar") :
    constructVDM name gmin gmax = { gamma := none } ∧
    gammat (constructVDM name gmin gmax) t =
      .error "AttributeError: VariationalDiffusionModel has no attribute gamma" := by
  have hg : constructVDM name gmin gmax = { gamma := none } := by
    simp [constructVDM, setupGamma, h1, h2]
  refine ⟨hg, ?_⟩
  rw [hg]
  rfl

/-- C5 witness: the deferred failure at the concrete unknown name
"bogus" and `t = 1/2`. -/
theorem unknown_schedule_defers_failure_witness :
    constructVDM "bogus" (-3) 3 = { gamma := none } ∧
    gammat (constructVDM "bogus" (-3) 3) (1 / 2) =
      .error "AttributeError: VariationalDiffusionModel has no attribute gamma" :=
  unknown_schedule_defers_failure "bogus" (-3) 3 (1 / 2) (by decide) (by decide)

/-- C6 counterexample: with `n_classes = 1 > 0`, `embed` applied to absent
conditioning does not return `None`: it dereferences `None` in the guard
`conditioning.shape[-1] > 1` and raises an attribute error. -/
theorem embed_absent_conditioning_raises :
    embed 1 embedParams0 none =
      .error "AttributeError: NoneType object has no attribute shape" ∧
    embed 1 embedParams0 none ≠ .ok none := by
  refine ⟨rfl, ?_⟩
  intro h
  rw [show embed 1 embedParams0 none =
      Except.error "AttributeError: NoneType object has no attribute shape" from rfl] at h
  exact Except.noConfusion h

/-- C6 (amended): with absent conditioning, `embed` returns `None` exactly
when `n_classes = 0`; for every configuration with `n_classes > 0` it
instead fails with an attribute error from dereferencing `None`. -/
theorem embed_absent_conditioning_behavior (n_classes : ℕ) (P : EmbedParams) :
    (n_classes = 0 → embed n_classes P none = .ok none) ∧
    (0 < n_classes → embed n_classes P none =
      .error "AttributeError: NoneType object has no attribute shape") := by
  constructor
  · intro h
    simp [embed, h]
  · intro h
    simp [embed, h]

/-- C6 witness: the amended behavior at `n_classes = 0` and
`n_classes = 2` with concrete embedding tables. -/
theorem embed_absent_conditioning_behavior_witness :
    embed 0 embedParams0 none = .ok none ∧
    embed 2 embedParams0 none =
      .error "AttributeError: NoneType object has no attribute shape" :=
  ⟨(embed_absent_conditioning_behavior 0 embedParams0).1 rfl,
    (embed_absent_conditioning_behavior 2 embedParams0).2 (by norm_num)⟩

/-- C7: `sample_step` as transcribed from the code coincides, for every
choice of primitives, key, step index, depth, state, conditioning and
mask, with the transition exactly as the spec states it: `t = (T-i)/T`,
`s = (T-i-1)/T`, score query at `gamma(t)`, coefficients
`a = sigmoid(gamma(s))`, `b = sigmoid(gamma(t))`,
`c = -expm1(gamma(t)-gamma(s))`, `sigma_t = sqrt(sigma2(gamma(t)))`,
fresh noise keyed by folding `i` into the run key, and next state
`sqrt(a/b)*(z_t - sigma_t*c*eps_hat) + sqrt((1-a)*c)*eps`. -/
theorem sample_step_matches_spec (P : SamplePrims) (rng i T : ℕ) (z_t : List ℚ)
    (conditioning : Option (List ℚ)) (mask : List Bool) :
    sample_step P rng i T z_t conditioning mask =
      sampleStepSpec P rng i T z_t conditioning mask := rfl



/-- C3 counterexample: a batch element whose mask is all-False but whose
padded features are NaN does NOT contribute exactly zero: `NaN * 0 = NaN`
under IEEE multiplication, so the NaN propagates through the
mask-weighting of `elbo` and the element's contribution is NaN, not 0. -/
theorem elbo_allFalse_nan_contribution :
    elboElementLoss [[FP.nan]] [[FP.val 0]] [[[FP.val 0]]] [false] 1 = FP.nan ∧
    elboElementLoss [[FP.nan]] [[FP.val 0]] [[[FP.val 0]]] [false] 1 ≠ FP.val 0 := by
  decide

/-- C3 (amended): for every batch element whose validity mask is
all-False, and whose reconstruction, latent and per-step diffusion loss
entries are all finite (non-NaN), the element's contribution to the
mask-weighted aggregate loss of `elbo` is exactly zero, regardless of the
finite values; with NaN padding the contribution is NaN instead. -/
theorem elbo_allFalse_mask_zero (recon klz : List (List FP)) (diffs : List (List (List FP)))
    (mask : List Bool) (steps : ℕ)
    (hm : ∀ b ∈ mask, b = false)
    (hr : ∀ row ∈ recon, ∀ x ∈ row, x ≠ FP.nan)
    (hk : ∀ row ∈ klz, ∀ x ∈ row, x ≠ FP.nan)
    (hd : ∀ d ∈ diffs, ∀ row ∈ d, ∀ x ∈ row, x ≠ FP.nan) :
    elboElementLoss recon klz diffs mask steps = FP.val 0 := by
  unfold elboElementLoss
  rw [maskedSum_allFalse recon mask hm hr, maskedSum_allFalse klz mask hm hk,
    elboDiffFold_allFalse diffs mask steps hm hd]
  simp [FP.add]

/-- C3 witness: the amended zero-contribution property at a concrete
all-False-masked element with finite entries. -/
theorem elbo_allFalse_mask_zero_witness :
    (∀ b ∈ [false, false], b = false) ∧
    (∀ row ∈ [[FP.val 5, FP.val 3], [FP.val 9, FP.val 1]], ∀ x ∈ row, x ≠ FP.nan) ∧
    (∀ row ∈ [[FP.val 2, FP.val 7], [FP.val 4, FP.val 6]], ∀ x ∈ row, x ≠ FP.nan) ∧
    (∀ d ∈ [[[FP.val 8, FP.val 5], [FP.val 2, FP.val 3]]], ∀ row ∈ d, ∀ x ∈ row, x ≠ FP.nan) ∧
    elboElementLoss [[FP.val 5, FP.val 3], [FP.val 9, FP.val 1]]
      [[FP.val 2, FP.val 7], [FP.val 4, FP.val 6]]
      [[[FP.val 8, FP.val 5], [FP.val 2, FP.val 3]]] [false, false] 4 = FP.val 0 :=
  ⟨by decide, by decide, by decide, by decide,
    elbo_allFalse_mask_zero [[FP.val 5, FP.val 3], [FP.val 9, FP.val 1]]
      [[FP.val 2, FP.val 7], [FP.val 4, FP.val 6]]
      [[[FP.val 8, FP.val 5], [FP.val 2, FP.val 3]]] [false, false] 4
      (by decide) (by decide) (by decide) (by decide)⟩

/-- C4: for every choice of the opaque components, every key and every
`steps >= 1`, the eagerly-unrolled Python loop and the bounded
`fori_loop` of `elbo` compute the same diffusion-loss accumulator AND the
same final key cursor (hence they consume the identical sequence of
random splits, in the same order), and the two strategies return the same
scalar ELBO value. -/
theorem elbo_unroll_loop_equiv (P : ElboParts) (steps rng : ℕ) (h : 1 ≤ steps) :
    (∀ rng0 : ℕ, elboLoopUnrolled P steps rng0 = elboLoopFori P steps rng0) ∧
    elboValue P steps rng true = elboValue P steps rng false := by
  have key : ∀ rng0 : ℕ, elboLoopUnrolled P steps rng0 = elboLoopFori P steps rng0 := by
    intro rng0
    unfold elboLoopUnrolled elboLoopFori pythonFor foriLoop
    rw [pythonForAux_eq_range' (elboBody P steps) steps 0 (0, rng0)]
    simp
  refine ⟨key, ?_⟩
  simp only [elboValue, key, if_true, if_false, ite_self]

/-- C4 witness: the loop equivalence at concrete components, `steps = 3`
and key `0`. -/
theorem elbo_unroll_loop_equiv_witness :
    (∀ rng0 : ℕ, elboLoopUnrolled elboParts0 3 rng0 = elboLoopFori elboParts0 3 rng0) ∧
    elboValue elboParts0 3 0 true = elboValue elboParts0 3 0 false :=
  elbo_unroll_loop_equiv elboParts0 3 0 (by norm_num)

/-- C8: for every log-SNR value `g1` at time one and every finite latent
component `f`, the latent loss
`0.5 * ((1 - sigma2(g1)) * f^2 + sigma2(g1) - log(sigma2(g1)) - 1)` is
non-negative: `sigma2 = sigmoid` lies in `(0, 1)`, so both the squared
term and the `v - log v - 1` term are non-negative. -/
theorem latent_loss_nonneg (g1 f : ℝ) : 0 ≤ latent_loss g1 f := by
  show 0 ≤ 0.5 * ((1 - sigma2R g1) * f ^ 2 + sigma2R g1 - Real.log (sigma2R g1) - 1)
  have hv0 : 0 < sigma2R g1 := sigmoidR_pos g1
  have hv1 : sigma2R g1 < 1 := sigmoidR_lt_one g1
  have hlog : Real.log (sigma2R g1) ≤ sigma2R g1 - 1 := Real.log_le_sub_one_of_pos hv0
  have hsq : 0 ≤ (1 - sigma2R g1) * f ^ 2 := mul_nonneg (by linarith) (sq_nonneg f)
  linarith

/-- C9: for every real log-SNR value `g`, the signal retention
`alpha(g) = sqrt(sigmoid(-g))` and the noise variance
`sigma2(g) = sigmoid(g)` satisfy the variance-preserving identity
`alpha(g)^2 + sigma2(g) = 1`. -/
theorem variance_preserving_identity (g : ℝ) : alphaR g ^ 2 + sigma2R g = 1 := by
  have hpos : 0 ≤ sigmoidR (-g) := le_of_lt (sigmoidR_pos (-g))
  unfold alphaR sigma2R
  rw [Real.sq_sqrt hpos]
  unfold sigmoidR
  rw [neg_neg, Real.exp_neg]
  have hu : (0 : ℝ) < Real.exp g := Real.exp_pos g
  have h1 : (1 : ℝ) + Real.exp g ≠ 0 := by positivity
  have h2 : (1 : ℝ) + (Real.exp g)⁻¹ ≠ 0 := by positivity
  field_simp
  ring

/-- C10: for every `steps >= 1` and `timesteps = T >= 1`, the integration
grid of `elbo` is `t = i/steps` with first point exactly `0`;
`diffusion_loss` then queries the schedule at `s = 0 - 1/T = -(1/T)`,
which is negative — outside the schedule domain `[0, 1]` — and the
fixed-linear schedule of a model constructed with "learned_linear"
evaluates there without any error, returning
`gamma_min + (gamma_max - gamma_min) * s`. -/
theorem elbo_grid_hits_negative_time (steps T : ℕ) (gmin gmax : ℚ)
    (hs : 1 ≤ steps) (hT : 1 ≤ T) :
    (elboTimeGrid steps).head? = some 0 ∧
    diffusionLossShiftedTime 0 T = -(1 / (T : ℚ)) ∧
    diffusionLossShiftedTime 0 T < 0 ∧
    gammat (constructVDM "learned_linear" gmin gmax) (diffusionLossShiftedTime 0 T) =
      .ok (gmin + (gmax - gmin) * diffusionLossShiftedTime 0 T) := by
  have hT0 : (0 : ℚ) < (T : ℚ) := by
    exact_mod_cast Nat.lt_of_lt_of_le Nat.zero_lt_one hT
  refine ⟨?_, ?_, ?_, ?_⟩
  · obtain ⟨n, rfl⟩ : ∃ n, steps = n + 1 := ⟨steps - 1, by omega⟩
    unfold elboTimeGrid
    rw [List.range_succ_eq_map]
    simp
  · unfold diffusionLossShiftedTime
    ring
  · unfold diffusionLossShiftedTime
    have : 0 < 1 / (T : ℚ) := by positivity
    linarith
  · rfl

/-- C10 witness: the negative-time schedule query at the concrete
configuration `steps = 20`, `timesteps = 1000`, `gamma_min = -3`,
`gamma_max = 3`. -/
theorem elbo_grid_hits_negative_time_witness :
    (elboTimeGrid 20).head? = some 0 ∧
    diffusionLossShiftedTime 0 1000 = -(1 / (1000 : ℚ)) ∧
    diffusionLossShiftedTime 0 1000 < 0 ∧
    gammat (constructVDM "learned_linear" (-3) 3) (diffusionLossShiftedTime 0 1000) =
      .ok ((-3) + (3 - (-3)) * diffusionLossShiftedTime 0 1000) :=
  elbo_grid_hits_negative_time 20 1000 (-3) 3 (by norm_num) (by norm_num)
